import Mathlib

/-!
Verification of the debate-orchestration core of the Dueling Quibblers
repository, as a shallow embedding in Lean 4.

The embedding follows `src/ecs/dueling_quibblers_v2.py` and
`src/dueling_quibblers_v4.py`. The language-model backend (`ollama.chat`,
`OllamaLLM.invoke`) is treated as an oracle `gen : String → String` mapping a
prompt to the generated text; console printing and the Streamlit/Rich
presentation calls are effect-free with respect to the debate state and are
omitted. Python strings are modelled as Lean `String`s: `str.lower()` as an
ASCII case map (`Char.toLower` character-wise), the substring test
`needle in hay` as `List.IsInfix` on the underlying character lists, and the
slice `s[:n]` as `List.take n` on the characters.
-/

namespace DuelingQuibblers

/-- One entry of `debate_history`: the dict
`{"speaker": …, "argument": …, "round": …}` appended by `debater1_speaks` /
`debater2_speaks`. -/
structure Turn where
  speaker : String
  argument : String
  round : Nat
deriving DecidableEq, Repr

/-- A personality template: the `{"style": …, "tone": …}` dicts of
`DebateManager.character_personalities` / `judge_personalities`. -/
structure Persona where
  style : String
  tone : String
deriving DecidableEq, Repr

/-- The structured verdict (`JudgeVerdict` pydantic model in
`dueling_quibblers_v2.py`). -/
structure JudgeVerdict where
  debate_winner : String
  debate_winner_explanation : String
deriving DecidableEq, Repr

/-- The `DebateState` TypedDict, restricted to the fields the orchestration
logic reads or writes (`current_debater` / `current_position` are
presentation-only mirrors for Streamlit and never feed back into the flow). -/
structure DebateStateRec where
  topic : String
  debater1 : String
  debater2 : String
  debater1_position : String
  debater2_position : String
  judge : String
  round_number : Nat
  debate_history : List Turn
deriving DecidableEq, Repr

/-- One entry of `debate_progress` built by `run_debate_streamlit`. -/
structure ProgressEntry where
  round : Nat
  speaker : String
  argument : String
  position : String
deriving DecidableEq, Repr

/-! ### Python string primitives -/

/-- Python `str.lower()` on the ASCII range, character by character
(`Char.toLower` maps `A`–`Z` to `a`–`z` and fixes everything else). -/
def pyLower (s : String) : String := ⟨s.data.map Char.toLower⟩

/-- Python's substring test `needle in hay`. -/
def pyContains (hay needle : String) : Prop := needle.data <:+: hay.data

instance (hay needle : String) : Decidable (pyContains hay needle) :=
  List.decidableInfix needle.data hay.data

/-- Python's slice `s[:n]`: the first `n` characters (all of `s` if shorter). -/
def pySlice (s : String) (n : Nat) : String := ⟨s.data.take n⟩

/-- Split a character list on a separator, keeping empty pieces (the
semantics of Python `str.split` with an explicit separator). -/
def splitOnChar (sep : Char) : List Char → List (List Char)
  | [] => [[]]
  | c :: rest =>
    if c = sep then [] :: splitOnChar sep rest
    else
      match splitOnChar sep rest with
      | [] => [[c]]
      | piece :: pieces => (c :: piece) :: pieces

/-- Python's `content.split("\n")`. -/
def pySplitLines (s : String) : List String :=
  (splitOnChar '\n' s.data).map String.mk

/-- Right-fold string concatenation; the accumulation `acc += f(x)` loops of
the source produce exactly this string. -/
def strJoin : List String → String
  | [] => ""
  | s :: rest => s ++ strJoin rest

/-! ### Persona registries (`DebateManager.__init__`) -/

/-- `DebateManager.character_personalities`, in insertion order. -/
def character_personalities : List (String × Persona) :=
  [("harry potter",
    ⟨"Brave, determined, speaks with conviction about justice and doing what's right. Uses phrases like 'I believe', 'We must', 'It's our duty'.",
     "Passionate and earnest, with a sense of moral responsibility"⟩),
   ("phoenix wright",
    ⟨"Confident, witty, uses clever wordplay and dramatic flair. Speaks with theatrical gestures and dramatic pauses.",
     "Charismatic and theatrical, with a touch of mystery"⟩),
   ("gandalf",
    ⟨"Wise, philosophical, speaks with ancient wisdom and authority. Uses formal language and references to history and lore.",
     "Sage-like and authoritative, with deep knowledge"⟩),
   ("sherlock holmes",
    ⟨"Analytical, logical, presents arguments with deductive reasoning and evidence. Uses phrases like 'Elementary', 'The facts clearly indicate'.",
     "Precise and analytical, with sharp wit"⟩),
   ("wonder woman",
    ⟨"Strong, compassionate, speaks about truth, justice, and equality. Uses empowering language and references to ancient wisdom.",
     "Noble and inspiring, with warrior spirit"⟩),
   ("iron man",
    ⟨"Genius, sarcastic, uses humor and technology references. Speaks with confidence and occasional snark.",
     "Brilliant and witty, with technological insight"⟩)]

/-- `DebateManager.judge_personalities`, in insertion order. -/
def judge_personalities : List (String × Persona) :=
  [("judge dredd",
    ⟨"Authoritarian, speaks with absolute authority and harsh judgment. Uses phrases like 'I am the law', 'Guilty as charged', 'Justice is swift'.",
     "Harsh and uncompromising, with zero tolerance for weakness"⟩),
   ("j.a.r.v.i.s.",
    ⟨"Polite, analytical, speaks with British formality and technological precision. Uses phrases like 'If I may', 'Analysis complete', 'I must respectfully disagree'.",
     "Courteous and precise, with sophisticated AI reasoning"⟩),
   ("spock",
    ⟨"Logical, emotionless, presents decisions based purely on facts and logic. Uses phrases like 'That is illogical', 'The facts indicate', 'Fascinating'.",
     "Completely rational and analytical, with Vulcan precision"⟩),
   ("brainiac",
    ⟨"Superior, condescending, speaks with intellectual arrogance and vast knowledge. Uses phrases like 'Your primitive arguments', 'My superior intellect', 'Obviously'.",
     "Intellectually superior and dismissive of lesser minds"⟩),
   ("lex luthor",
    ⟨"Cunning, manipulative, speaks with calculated intelligence and subtle threats. Uses phrases like 'How predictable', 'Your naivety is showing', 'I expected better'.",
     "Smooth and calculating, with underlying menace"⟩),
   ("rick sanchez",
    ⟨"Cynical, brilliant, speaks with scientific genius and existential nihilism. Uses phrases like 'Wubba lubba dub dub', 'Your arguments are garbage', 'Science, bitch'.",
     "Brilliant but cynical, with scientific arrogance"⟩),
   ("the doctor",
    ⟨"Eccentric, wise, speaks with ancient knowledge and quirky charm. Uses phrases like 'Brilliant', 'Oh, that's clever', 'Time and space'.",
     "Warm and eccentric, with centuries of wisdom"⟩),
   ("sheldon cooper",
    ⟨"Pedantic, socially awkward, presents arguments with scientific precision and social obliviousness. Uses phrases like 'Bazinga', 'That's incorrect', 'I have a PhD'.",
     "Intellectually superior but socially awkward"⟩),
   ("abed nadir",
    ⟨"Meta-aware, pop-culture obsessed, speaks with TV show references and meta-commentary. Uses phrases like 'This is like that episode of', 'Plot twist', 'Character development'.",
     "Self-aware and pop-culture savvy, with meta-humor"⟩)]

/-- The fallback personality for unknown characters
(`get_character_personality`, final `return`). -/
def fallback_character_personality : Persona :=
  ⟨"Unique and distinctive, speaks with their own special flair and mannerisms.",
   "Distinctive and memorable, with their own personality"⟩

/-- The fallback personality for unknown judges
(`get_judge_personality`, final `return`). -/
def fallback_judge_personality : Persona :=
  ⟨"Wise and impartial, speaks with judicial authority and fairness.",
   "Authoritative and fair, with balanced judgment"⟩

/-- The loop `for known, personality in registry.items(): if name.lower() in
known: return personality` followed by the fallback `return`. -/
def lookupPersona (fb : Persona) (name : String) :
    List (String × Persona) → Persona
  | [] => fb
  | (key, personality) :: rest =>
    if pyContains key (pyLower name) then personality
    else lookupPersona fb name rest

/-- `DebateManager.get_character_personality`. -/
def get_character_personality (character_name : String) : Persona :=
  lookupPersona fallback_character_personality character_name
    character_personalities

/-- `DebateManager.get_judge_personality`. -/
def get_judge_personality (judge_name : String) : Persona :=
  lookupPersona fallback_judge_personality judge_name judge_personalities

/-! ### Verdict parsing (`DebateManager.generate_judgment`,
`dueling_quibblers_v2.py` lines 344–362) -/

/-- The matching test of one parser loop iteration: the debater's name
(lowercased) occurs in the lowercased line, and so does `"win"`. -/
def lineMatches (name line : String) : Prop :=
  pyContains (pyLower line) (pyLower name) ∧ pyContains (pyLower line) "win"

instance (name line : String) : Decidable (lineMatches name line) :=
  inferInstanceAs (Decidable (_ ∧ _))

/-- The parser loop: `winner = debater1` by default, then the first line
matching debater 1 (checked first) or debater 2 sets the winner and breaks. -/
def findWinner (debater1 debater2 : String) : List String → String
  | [] => debater1
  | line :: rest =>
    if lineMatches debater1 line then debater1
    else if lineMatches debater2 line then debater2
    else findWinner debater1 debater2 rest

/-- The pure tail of `generate_judgment`: split the model output on newlines,
scan for a winner, keep the whole output as the explanation. -/
def parse_judgment (content debater1 debater2 : String) : JudgeVerdict :=
  { debate_winner := findWinner debater1 debater2 (pySplitLines content)
    debate_winner_explanation := content }

/-! ### Prompt builders (`create_debate_prompt`, `create_judgment_prompt`)

`dueling_quibblers_v4.py` interpolates the configured `DEBATE_NUM_ROUNDS`
into the debate prompt; `dueling_quibblers_v2.py` is this template with the
literal `3` in its place, so one definition parameterised by `numRounds`
covers both files. -/

/-- The `history_context` local of `create_debate_prompt`: empty for an empty
history, otherwise a header plus one `- speaker: argument` line per entry,
each argument verbatim. -/
def history_context (hist : List Turn) : String :=
  if hist = [] then ""
  else "\n\nPrevious arguments:\n" ++
    strJoin (hist.map fun entry => "- " ++ entry.speaker ++ ": " ++ entry.argument ++ "\n")

/-- The part of the debate-prompt f-string before `{history_context}`. -/
def debate_prompt_before (numRounds : Nat) (st : DebateStateRec) (speaker : String) : String :=
  let is_debater1 := speaker = st.debater1
  let speaker_position :=
    if is_debater1 then st.debater1_position else st.debater2_position
  let opponent := if is_debater1 then st.debater2 else st.debater1
  let opponent_position :=
    if is_debater1 then st.debater2_position else st.debater1_position
  let personality := get_character_personality speaker
  "You are " ++ speaker ++ " participating in a formal debate.\n\nTopic: " ++
    st.topic ++ "\nYour position: " ++ speaker_position ++ "\nOpponent: " ++
    opponent ++ " (taking the " ++ opponent_position ++
    " position)\nCurrent round: " ++ toString st.round_number ++ " of " ++
    toString numRounds ++ "\n\nYour speaking style: " ++ personality.style ++
    "\nYour tone: " ++ personality.tone ++ "\n\n"

/-- The part of the debate-prompt f-string after `{history_context}`. -/
def debate_prompt_after (st : DebateStateRec) (speaker : String) : String :=
  "\n\nAs " ++ speaker ++ ", present your argument for round " ++
    toString st.round_number ++
    ". \n- If this is your first argument, present your main case\n- If this is a later round, address your opponent's previous arguments and strengthen your position\n- Stay in character as " ++
    speaker ++
    " throughout\n- Be engaging and entertaining while making logical points\n- Keep your response to 2-3 paragraphs maximum\n\nSpeak now as " ++
    speaker ++ ":"

/-- `DebateManager.create_debate_prompt`. -/
def create_debate_prompt (numRounds : Nat) (st : DebateStateRec) (speaker : String) : String :=
  debate_prompt_before numRounds st speaker ++ history_context st.debate_history ++
    debate_prompt_after st speaker

/-- One iteration of the `arguments_summary` loop of
`create_judgment_prompt`: the entry with its argument sliced to `[:200]`. -/
def judgment_entry (entry : Turn) : String :=
  "\n" ++ entry.speaker ++ " (Round " ++ toString entry.round ++ "): " ++
    pySlice entry.argument 200 ++ "...\n"

/-- The `arguments_summary` local of `create_judgment_prompt`, folded over the
whole `debate_history`. -/
def arguments_summary (hist : List Turn) : String :=
  strJoin (hist.map judgment_entry)

/-- The part of the judgment-prompt f-string before `{arguments_summary}`. -/
def judgment_prompt_before (st : DebateStateRec) : String :=
  let personality := get_judge_personality st.judge
  "You are " ++ st.judge ++
    ", presiding as judge over this debate.\n\nTopic: " ++ st.topic ++
    "\nDebater 1: " ++ st.debater1 ++ " (taking the " ++ st.debater1_position ++
    " position)\nDebater 2: " ++ st.debater2 ++ " (taking the " ++
    st.debater2_position ++ " position)\n\nYour speaking style: " ++
    personality.style ++ "\nYour tone: " ++ personality.tone ++
    "\n\nAll arguments presented:"

/-- The part of the judgment-prompt f-string after `{arguments_summary}`. -/
def judgment_prompt_after (st : DebateStateRec) : String :=
  "\n\nAs " ++ st.judge ++
    ", you must now deliver your verdict. You should:\n1. Announce which debater has won (either " ++
    st.debater1 ++ " or " ++ st.debater2 ++
    ")\n2. Explain your reasoning for the decision\n3. Comment on the quality of arguments from both sides\n4. Stay completely in character as " ++
    st.judge ++
    " throughout\n5. Be entertaining and memorable in your delivery\n6. Keep your verdict to 3-4 paragraphs maximum\n\nDeliver your judgment as " ++
    st.judge ++ ":"

/-- `DebateManager.create_judgment_prompt`. -/
def create_judgment_prompt (st : DebateStateRec) : String :=
  judgment_prompt_before st ++ arguments_summary st.debate_history ++
    judgment_prompt_after st

/-- `DebateManager.generate_judgment` with the model call replaced by the
oracle `gen`: build the judgment prompt, submit it, parse the output. -/
def generate_judgment (gen : String → String) (st : DebateStateRec) : JudgeVerdict :=
  parse_judgment (gen (create_judgment_prompt st)) st.debater1 st.debater2

/-! ### The compiled graph (`DebateManager.create_debate_graph`)

`start_debate → debater1_speaks → debater2_speaks →` (conditional edge:
`advance_round → debater1_speaks` while `round_number < numRounds`, else
`end_of_arguments → judge_verdict → END`). Each node returns a state delta
that LangGraph merges into the state; `debate_history` is annotated with
`operator.add`, so the one-entry lists returned by the speaker nodes are
appended to the accumulated history. -/

/-- The round cycle of the compiled graph, entered at `debater1_speaks`:
debater 1 speaks, debater 2 speaks (each appending its `Turn`), then the
conditional edge either increments `round_number` (`advance_round`) and loops
or leaves the state for judgment. `fuel` is the loop variant
`numRounds - round_number`, which the conditional edge keeps positive at
every recursive entry; the `0` case of the inner match is unreachable from
`runRounds`. -/
def speakBoth (gen : String → String) (numRounds : Nat) (st : DebateStateRec) :
    DebateStateRec :=
  let response1 := gen (create_debate_prompt numRounds st st.debater1)
  let st1 := { st with debate_history :=
    st.debate_history ++ [⟨st.debater1, response1, st.round_number⟩] }
  let response2 := gen (create_debate_prompt numRounds st1 st1.debater2)
  { st1 with debate_history :=
    st1.debate_history ++ [⟨st1.debater2, response2, st1.round_number⟩] }

def runRoundsFuel (gen : String → String) (numRounds : Nat) :
    Nat → DebateStateRec → DebateStateRec
  | fuel, st =>
    let st2 := speakBoth gen numRounds st
    if st2.round_number < numRounds then
      match fuel with
      | 0 => st2
      | fuel + 1 =>
        runRoundsFuel gen numRounds fuel { st2 with round_number := st2.round_number + 1 }
    else st2

/-- The round cycle from a given state until the conditional edge routes to
judgment. -/
def runRounds (gen : String → String) (numRounds : Nat) (st : DebateStateRec) :
    DebateStateRec :=
  runRoundsFuel gen numRounds (numRounds - st.round_number) st

/-- A full pass of the compiled graph from an initialized state (round 1,
empty history) to `END`: the round cycle followed by the `judge_verdict`
node. Returns the final accumulated history and the parsed verdict. -/
def stream_run (gen : String → String) (numRounds : Nat) (st0 : DebateStateRec) :
    List Turn × JudgeVerdict :=
  let final := runRounds gen numRounds st0
  (final.debate_history, generate_judgment gen final)

/-! ### Failure propagation

`generate_debate_response` / `generate_judgment` call the model backend with
no `try`/`except`; a raised error unwinds through every graph node
(`main` catches only `KeyboardInterrupt`). The fallible backend is an oracle
`genE : String → Except String String` and a raise is the `.error` short
circuit. -/

/-- `runRoundsFuel` over a fallible backend: any failed generation aborts the
cycle at once with that error. -/
def runRoundsEFuel (genE : String → Except String String) (numRounds : Nat) :
    Nat → DebateStateRec → Except String DebateStateRec
  | fuel, st =>
    match genE (create_debate_prompt numRounds st st.debater1) with
    | .error e => .error e
    | .ok response1 =>
      let st1 := { st with debate_history :=
        st.debate_history ++ [⟨st.debater1, response1, st.round_number⟩] }
      match genE (create_debate_prompt numRounds st1 st1.debater2) with
      | .error e => .error e
      | .ok response2 =>
        let st2 := { st1 with debate_history :=
          st1.debate_history ++ [⟨st1.debater2, response2, st1.round_number⟩] }
        if st2.round_number < numRounds then
          match fuel with
          | 0 => .ok st2
          | fuel + 1 =>
            runRoundsEFuel genE numRounds fuel { st2 with round_number := st2.round_number + 1 }
        else .ok st2

/-- The round cycle over a fallible backend. -/
def runRoundsE (genE : String → Except String String) (numRounds : Nat)
    (st : DebateStateRec) : Except String DebateStateRec :=
  runRoundsEFuel genE numRounds (numRounds - st.round_number) st

/-- A full graph pass over a fallible backend: the caller receives either the
completed history with its verdict, or the propagated error and nothing else. -/
def stream_runE (genE : String → Except String String) (numRounds : Nat)
    (st0 : DebateStateRec) : Except String (List Turn × JudgeVerdict) :=
  match runRoundsE genE numRounds st0 with
  | .error e => .error e
  | .ok final =>
    match genE (create_judgment_prompt final) with
    | .error e => .error e
    | .ok content =>
      .ok (final.debate_history, parse_judgment content final.debater1 final.debater2)

/-! ### Batch mode (`run_debate_streamlit`, `dueling_quibblers_v2.py`
lines 417–547) -/

/-- The body of `for round_num in range(1, 4)`: both debaters speak against
the state as it stood at the top of the iteration (`debate_history` is
extended only after both responses are generated), and the progress/log
accumulators grow. -/
def batch_round (gen : String → String) (topic debater1 debater2 : String)
    (pos1 pos2 judge : String)
    (acc : List Turn × List ProgressEntry × List (String × String))
    (round_num : Nat) :
    List Turn × List ProgressEntry × List (String × String) :=
  let hist := acc.1
  let st : DebateStateRec :=
    ⟨topic, debater1, debater2, pos1, pos2, judge, round_num, hist⟩
  let d1_response := gen (create_debate_prompt 3 st debater1)
  let d2_response := gen (create_debate_prompt 3 st debater2)
  (hist ++ [⟨debater1, d1_response, round_num⟩, ⟨debater2, d2_response, round_num⟩],
   acc.2.1 ++ [⟨round_num, debater1, d1_response, pos1⟩,
               ⟨round_num, debater2, d2_response, pos2⟩],
   acc.2.2 ++ [(d1_response, d2_response)])

/-- `run_debate_streamlit`, with positions passed in (the caller's
`random.shuffle` outcome): three batch rounds, then one judgment over the
final history. Returns `(debate_progress, debate_log, winner, reason)`. -/
def run_debate_streamlit (gen : String → String)
    (topic debater1 debater2 judge pos1 pos2 : String) :
    List ProgressEntry × List (String × String) × String × String :=
  let acc := [1, 2, 3].foldl (batch_round gen topic debater1 debater2 pos1 pos2 judge)
    ([], [], [])
  let final : DebateStateRec :=
    ⟨topic, debater1, debater2, pos1, pos2, judge, 3, acc.1⟩
  let verdict := generate_judgment gen final
  (acc.2.1, acc.2.2, verdict.debate_winner, verdict.debate_winner_explanation)

/-! ### Setup randomness (`initialize_debate`, `app_v2.py` lines 62–65)

`random.shuffle` on the two-element list `["affirmative", "negative"]` yields
one of its two orders, each with probability 1/2; the draw is modelled by a
fair coin. `random.choice(judge_list)` is modelled by a uniform index into
the roster. -/

/-- The two possible outcomes of `random.shuffle(["affirmative", "negative"])`. -/
def shuffled_positions (coin : Bool) : String × String :=
  if coin then ("affirmative", "negative") else ("negative", "affirmative")

/-- The `judge_list` roster of `initialize_debate`. -/
def judge_list : List String :=
  ["Judge Dredd", "J.A.R.V.I.S.", "Spock", "Brainiac", "Lex Luthor",
   "The Doctor", "Sheldon Cooper", "Rick Sanchez", "Abed Nadir"]

/-- The state assembled by `initialize_debate` (the interactive reads supply
`topic`, `debater1`, `debater2`; the coin fixes the shuffled positions and the
index fixes `random.choice(judge_list)`). -/
def initialize_debate (coin : Bool) (jidx : Fin judge_list.length)
    (topic debater1 debater2 : String) : DebateStateRec :=
  { topic := topic
    debater1 := debater1
    debater2 := debater2
    debater1_position := (shuffled_positions coin).1
    debater2_position := (shuffled_positions coin).2
    judge := judge_list.get jidx
    round_number := 1
    debate_history := [] }

/-- The keys of `judge_personalities`, the roster
`list(debate_manager.judge_personalities.keys())` that `app_v2.py` draws from
when the judge box reads "random". -/
def judge_keys : List String := judge_personalities.map Prod.fst

/-- `app_v2.py` lines 62–65: a supplied judge is kept; the "random" sentinel
(case-insensitively) is replaced by a uniform draw from `judge_keys`. -/
def resolve_judge (judge : String) (jidx : Fin judge_keys.length) : String :=
  if pyLower judge = "random" then judge_keys.get jidx else judge

/-! ## Helper lemmas -/

theorem toNat_ofNat_of_lt {n : Nat} (h : n < 0xd800) : (Char.ofNat n).toNat = n := by
  rw [Char.ofNat, dif_pos (Or.inl h)]
  rfl

theorem toLower_toLower (c : Char) : c.toLower.toLower = c.toLower := by
  have key : ∀ n : Nat, 65 ≤ n → n ≤ 90 →
      (Char.ofNat (n + 32)).toLower = Char.ofNat (n + 32) := by
    intro n h1 h2
    have ht : (Char.ofNat (n + 32)).toNat = n + 32 := toNat_ofNat_of_lt (by omega)
    simp only [Char.toLower, ht]
    rw [if_neg (by omega)]
  rcases Decidable.em (c.toNat ≥ 65 ∧ c.toNat ≤ 90) with h | h
  · have hc : c.toLower = Char.ofNat (c.toNat + 32) := by
      simp only [Char.toLower]
      rw [if_pos h]
    rw [hc]
    exact key c.toNat h.1 h.2
  · have hc : c.toLower = c := by
      simp only [Char.toLower]
      rw [if_neg h]
    rw [hc, hc]

theorem pyLower_idem (s : String) : pyLower (pyLower s) = pyLower s := by
  simp only [pyLower, List.map_map]
  exact congrArg String.mk (List.map_congr_left fun c _ => toLower_toLower c)

theorem lookupPersona_pyLower (fb : Persona) (name : String) :
    ∀ reg : List (String × Persona),
      lookupPersona fb (pyLower name) reg = lookupPersona fb name reg := by
  intro reg
  induction reg with
  | nil => rfl
  | cons kv rest ih =>
    simp only [lookupPersona, pyLower_idem, ih]

theorem lookupPersona_of_no_match (fb : Persona) (name : String) :
    ∀ reg : List (String × Persona),
      (∀ kv ∈ reg, ¬ pyContains kv.1 (pyLower name)) →
      lookupPersona fb name reg = fb := by
  intro reg
  induction reg with
  | nil => intro _; rfl
  | cons kv rest ih =>
    intro h
    have hkv := h kv (List.mem_cons_self kv rest)
    simp only [lookupPersona, if_neg hkv]
    exact ih fun kv' hkv' => h kv' (List.mem_cons_of_mem kv hkv')

theorem lookupPersona_of_match (fb : Persona) (name : String) :
    ∀ reg : List (String × Persona),
      (∃ kv ∈ reg, pyContains kv.1 (pyLower name)) →
      ∃ kv ∈ reg, pyContains kv.1 (pyLower name) ∧
        lookupPersona fb name reg = kv.2 := by
  intro reg
  induction reg with
  | nil => rintro ⟨kv, hkv, -⟩; exact absurd hkv (List.not_mem_nil kv)
  | cons kv rest ih =>
    intro hex
    rcases Decidable.em (pyContains kv.1 (pyLower name)) with hm | hm
    · exact ⟨kv, List.mem_cons_self kv rest, hm, by simp only [lookupPersona, if_pos hm]⟩
    · have : ∃ kv' ∈ rest, pyContains kv'.1 (pyLower name) := by
        rcases hex with ⟨kv', hkv', hc⟩
        rcases List.mem_cons.1 hkv' with rfl | hmem
        · exact absurd hc hm
        · exact ⟨kv', hmem, hc⟩
      rcases ih this with ⟨kv', hkv', hc, heq⟩
      exact ⟨kv', List.mem_cons_of_mem kv hkv',
        hc, by simp only [lookupPersona, if_neg hm]; exact heq⟩

/-! ## Claim theorems -/

/-- C6: persona lookup lowercases the candidate and tests it as a substring of
each registered key (input-in-key); it is total for every input, returning the
first matching key's persona when one exists and the generic fallback persona
— whose style and tone are non-empty — when none does. -/
theorem persona_lookup_total_with_fallback (name : String) :
    ((∀ kv ∈ character_personalities, ¬ pyContains kv.1 (pyLower name)) →
      get_character_personality name = fallback_character_personality) ∧
    ((∃ kv ∈ character_personalities, pyContains kv.1 (pyLower name)) →
      ∃ kv ∈ character_personalities, pyContains kv.1 (pyLower name) ∧
        get_character_personality name = kv.2) ∧
    ((∀ kv ∈ judge_personalities, ¬ pyContains kv.1 (pyLower name)) →
      get_judge_personality name = fallback_judge_personality) ∧
    ((∃ kv ∈ judge_personalities, pyContains kv.1 (pyLower name)) →
      ∃ kv ∈ judge_personalities, pyContains kv.1 (pyLower name) ∧
        get_judge_personality name = kv.2) ∧
    fallback_character_personality.style ≠ "" ∧
    fallback_character_personality.tone ≠ "" ∧
    fallback_judge_personality.style ≠ "" ∧
    fallback_judge_personality.tone ≠ "" :=
  ⟨lookupPersona_of_no_match _ name _,
   lookupPersona_of_match _ name _,
   lookupPersona_of_no_match _ name _,
   lookupPersona_of_match _ name _,
   by decide, by decide, by decide, by decide⟩

/-- Witness for C6: the unknown name "Zorblax the Unknown" matches no
registered key and receives the fallback persona. -/
theorem persona_lookup_total_with_fallback_witness :
    get_character_personality "Zorblax the Unknown" = fallback_character_personality :=
  (persona_lookup_total_with_fallback "Zorblax the Unknown").1 (by decide)

/-- C9: persona lookup is case-insensitive in its input — looking up the
lowercased name gives the same persona as looking up the name itself, and in
particular "HARRY" and "harry" agree. -/
theorem persona_lookup_case_insensitive :
    (∀ name : String,
      get_character_personality (pyLower name) = get_character_personality name) ∧
    get_character_personality "HARRY" = get_character_personality "harry" := by
  constructor
  · intro name
    exact lookupPersona_pyLower _ name _
  · have h := lookupPersona_pyLower fallback_character_personality "HARRY"
      character_personalities
    have hlow : pyLower "HARRY" = "harry" := by decide
    rw [hlow] at h
    exact h.symm

theorem findWinner_eq_or (debater1 debater2 : String) :
    ∀ lines : List String,
      findWinner debater1 debater2 lines = debater1 ∨
      findWinner debater1 debater2 lines = debater2 := by
  intro lines
  induction lines with
  | nil => exact Or.inl rfl
  | cons line rest ih =>
    simp only [findWinner]
    rcases Decidable.em (lineMatches debater1 line) with h1 | h1
    · rw [if_pos h1]; exact Or.inl rfl
    · rw [if_neg h1]
      rcases Decidable.em (lineMatches debater2 line) with h2 | h2
      · rw [if_pos h2]; exact Or.inr rfl
      · rw [if_neg h2]; exact ih

theorem findWinner_of_no_match (debater1 debater2 : String) :
    ∀ lines : List String,
      (∀ l ∈ lines, ¬ lineMatches debater1 l ∧ ¬ lineMatches debater2 l) →
      findWinner debater1 debater2 lines = debater1 := by
  intro lines
  induction lines with
  | nil => intro _; rfl
  | cons line rest ih =>
    intro h
    have hline := h line (List.mem_cons_self line rest)
    simp only [findWinner, if_neg hline.1, if_neg hline.2]
    exact ih fun l hl => h l (List.mem_cons_of_mem line hl)

theorem findWinner_first_match (debater1 debater2 : String) (l : String)
    (suf : List String) :
    ∀ pre : List String,
      (∀ l' ∈ pre, ¬ lineMatches debater1 l' ∧ ¬ lineMatches debater2 l') →
      (lineMatches debater1 l →
        findWinner debater1 debater2 (pre ++ l :: suf) = debater1) ∧
      (¬ lineMatches debater1 l → lineMatches debater2 l →
        findWinner debater1 debater2 (pre ++ l :: suf) = debater2) := by
  intro pre
  induction pre with
  | nil =>
    intro _
    constructor
    · intro h1
      simp only [List.nil_append, findWinner, if_pos h1]
    · intro h1 h2
      simp only [List.nil_append, findWinner, if_neg h1, if_pos h2]
  | cons p rest ih =>
    intro h
    have hp := h p (List.mem_cons_self p rest)
    have ihr := ih fun l' hl' => h l' (List.mem_cons_of_mem p hl')
    constructor
    · intro h1
      simp only [List.cons_append, findWinner, if_neg hp.1, if_neg hp.2]
      exact ihr.1 h1
    · intro h1 h2
      simp only [List.cons_append, findWinner, if_neg hp.1, if_neg hp.2]
      exact ihr.2 h1 h2

/-- C2: for every raw judgment output and every pair of debater names, the
parsed verdict's winner equals one of the two debater names on every parser
path, the defaulting fallback included. -/
theorem verdict_winner_is_a_debater (content debater1 debater2 : String) :
    (parse_judgment content debater1 debater2).debate_winner = debater1 ∨
    (parse_judgment content debater1 debater2).debate_winner = debater2 :=
  findWinner_eq_or debater1 debater2 (pySplitLines content)

/-- C3: the parser scans the output's lines in document order for a
case-insensitive occurrence of a debater's name together with the token
"win"; the first matching line determines the winner (the winner's name
matches in that line), no matching line defaults the winner to debater 1,
and the explanation is always the full raw text. -/
theorem parser_first_match_and_default (raw debater1 debater2 : String) :
    (parse_judgment raw debater1 debater2).debate_winner_explanation = raw ∧
    ((∀ l ∈ pySplitLines raw, ¬ lineMatches debater1 l ∧ ¬ lineMatches debater2 l) →
      (parse_judgment raw debater1 debater2).debate_winner = debater1) ∧
    (∀ (pre : List String) (l : String) (suf : List String),
      pySplitLines raw = pre ++ l :: suf →
      (∀ l' ∈ pre, ¬ lineMatches debater1 l' ∧ ¬ lineMatches debater2 l') →
      (lineMatches debater1 l ∨ lineMatches debater2 l) →
      lineMatches (parse_judgment raw debater1 debater2).debate_winner l) := by
  refine ⟨rfl, ?_, ?_⟩
  · intro h
    exact findWinner_of_no_match debater1 debater2 _ h
  · intro pre l suf hsplit hpre hor
    have hfirst := findWinner_first_match debater1 debater2 l suf pre hpre
    show lineMatches (findWinner debater1 debater2 (pySplitLines raw)) l
    rw [hsplit]
    rcases Decidable.em (lineMatches debater1 l) with h1 | h1
    · rw [hfirst.1 h1]; exact h1
    · rcases hor with h | h2
      · exact absurd h h1
      · rw [hfirst.2 h1 h2]; exact h2

/-- Witness for C3: a free-text verdict with no line containing a debater
name and a win token defaults the winner to debater 1 and keeps the whole
text as the explanation. -/
theorem parser_first_match_and_default_witness :
    (parse_judgment "Nobody prevails here" "Harry Potter" "Gandalf").debate_winner =
      "Harry Potter" :=
  (parser_first_match_and_default "Nobody prevails here" "Harry Potter" "Gandalf").2.1
    (by decide)

/-- C10: within the first matching line, debater 1's name takes precedence:
if that line contains both debaters' names (case-insensitively) together with
the win token, the parser selects debater 1, whatever the order of the two
names inside the line. -/
theorem parser_prefers_debater1_within_line (raw debater1 debater2 : String)
    (pre : List String) (l : String) (suf : List String)
    (hsplit : pySplitLines raw = pre ++ l :: suf)
    (hpre : ∀ l' ∈ pre, ¬ lineMatches debater1 l' ∧ ¬ lineMatches debater2 l')
    (h1 : lineMatches debater1 l) (_h2 : lineMatches debater2 l) :
    (parse_judgment raw debater1 debater2).debate_winner = debater1 := by
  show findWinner debater1 debater2 (pySplitLines raw) = debater1
  rw [hsplit]
  exact (findWinner_first_match debater1 debater2 l suf pre hpre).1 h1

/-- Witness for C10: in a single line naming Gandalf before Harry Potter and
containing "win", the parser still selects debater 1 (Harry Potter). -/
theorem parser_prefers_debater1_within_line_witness :
    (parse_judgment "Gandalf and Harry Potter both tried to win"
      "Harry Potter" "Gandalf").debate_winner = "Harry Potter" :=
  parser_prefers_debater1_within_line
    "Gandalf and Harry Potter both tried to win" "Harry Potter" "Gandalf"
    [] "Gandalf and Harry Potter both tried to win" [] (by decide)
    (by intro l' hl'; exact absurd hl' (List.not_mem_nil l')) (by decide) (by decide)

theorem runRoundsFuel_fields (gen : String → String) (numRounds : Nat) :
    ∀ (fuel : Nat) (st : DebateStateRec),
      (runRoundsFuel gen numRounds fuel st).topic = st.topic ∧
      (runRoundsFuel gen numRounds fuel st).debater1 = st.debater1 ∧
      (runRoundsFuel gen numRounds fuel st).debater2 = st.debater2 ∧
      (runRoundsFuel gen numRounds fuel st).debater1_position = st.debater1_position ∧
      (runRoundsFuel gen numRounds fuel st).debater2_position = st.debater2_position ∧
      (runRoundsFuel gen numRounds fuel st).judge = st.judge := by
  intro fuel
  induction fuel with
  | zero =>
    intro st
    simp only [runRoundsFuel]
    split
    · exact ⟨rfl, rfl, rfl, rfl, rfl, rfl⟩
    · exact ⟨rfl, rfl, rfl, rfl, rfl, rfl⟩
  | succ k ih =>
    intro st
    simp only [runRoundsFuel]
    split
    · exact ih _
    · exact ⟨rfl, rfl, rfl, rfl, rfl, rfl⟩

theorem runRoundsFuel_unfold (gen : String → String) (numRounds fuel : Nat)
    (st : DebateStateRec) :
    runRoundsFuel gen numRounds fuel st =
      if st.round_number < numRounds then
        match fuel with
        | 0 => speakBoth gen numRounds st
        | fuel + 1 =>
          runRoundsFuel gen numRounds fuel
            { speakBoth gen numRounds st with round_number := st.round_number + 1 }
      else speakBoth gen numRounds st := by
  cases fuel with
  | zero => rfl
  | succ k => rfl

theorem speakBoth_history (gen : String → String) (numRounds : Nat) (st : DebateStateRec) :
    ∃ a1 a2 : String, (speakBoth gen numRounds st).debate_history =
      st.debate_history ++
        [⟨st.debater1, a1, st.round_number⟩, ⟨st.debater2, a2, st.round_number⟩] :=
  ⟨_, _, List.append_assoc st.debate_history _ _⟩

theorem runRoundsFuel_spec (gen : String → String) (numRounds : Nat) :
    ∀ (k : Nat) (st : DebateStateRec), st.round_number + k = numRounds →
    ∃ tail : List Turn,
      (runRoundsFuel gen numRounds k st).debate_history = st.debate_history ++ tail ∧
      tail.length = 2 * (k + 1) ∧
      (∀ i, i < tail.length → ∃ a : String,
        tail[i]? = some ⟨if i % 2 = 0 then st.debater1 else st.debater2, a,
          st.round_number + i / 2⟩) := by
  intro k
  induction k with
  | zero =>
    intro st hk
    rw [runRoundsFuel_unfold, if_neg (by omega : ¬ st.round_number < numRounds)]
    obtain ⟨a1, a2, hhist⟩ := speakBoth_history gen numRounds st
    refine ⟨[⟨st.debater1, a1, st.round_number⟩, ⟨st.debater2, a2, st.round_number⟩],
      hhist, rfl, ?_⟩
    intro i hi
    simp only [List.length_cons, List.length_nil] at hi
    interval_cases i
    · exact ⟨a1, by simp⟩
    · exact ⟨a2, by simp⟩
  | succ k ih =>
    intro st hk
    rw [runRoundsFuel_unfold, if_pos (by omega : st.round_number < numRounds)]
    obtain ⟨a1, a2, hhist⟩ := speakBoth_history gen numRounds st
    set stNext : DebateStateRec :=
      { speakBoth gen numRounds st with round_number := st.round_number + 1 } with hstNext
    obtain ⟨tail, htail, hlen, hidx⟩ := ih stNext (by simp [hstNext]; omega)
    refine ⟨⟨st.debater1, a1, st.round_number⟩ :: ⟨st.debater2, a2, st.round_number⟩ :: tail,
      ?_, ?_, ?_⟩
    · rw [htail]
      have hsh : stNext.debate_history = (speakBoth gen numRounds st).debate_history := rfl
      rw [hsh, hhist]
      simp
    · simp only [List.length_cons, hlen]
      omega
    · intro i hi
      match i with
      | 0 => exact ⟨a1, by simp⟩
      | 1 => exact ⟨a2, by simp⟩
      | Nat.succ (Nat.succ j) =>
        simp only [List.length_cons] at hi
        obtain ⟨a, ha⟩ := hidx j (by omega)
        refine ⟨a, ?_⟩
        simp only [List.getElem?_cons_succ]
        rw [ha]
        have hd1 : stNext.debater1 = st.debater1 := rfl
        have hd2 : stNext.debater2 = st.debater2 := rfl
        have hrn : stNext.round_number = st.round_number + 1 := rfl
        rw [hd1, hd2, hrn]
        have hmod : (j + 2) % 2 = j % 2 := by omega
        have hdiv : st.round_number + (j + 2) / 2 = st.round_number + 1 + j / 2 := by omega
        rw [hmod, hdiv]

/-- C1: from Setup (round 1, empty history) to Complete, a debate over `N`
configured rounds accumulates exactly `2N` Turns; within each round debater 1
speaks before debater 2 (even history indices belong to debater 1, odd ones to
debater 2), and the round indices are non-decreasing, running from 1 to `N` —
the conditional edge loops back to debater 1 with an incremented round index
only while the round index is below `N`, and otherwise routes to Judgment. -/
theorem debate_produces_two_turns_per_round (gen : String → String) (numRounds : Nat)
    (st0 : DebateStateRec) (hN : 1 ≤ numRounds) (hr : st0.round_number = 1)
    (hh : st0.debate_history = []) :
    (runRounds gen numRounds st0).debate_history.length = 2 * numRounds ∧
    (∀ i, i < 2 * numRounds → ∃ a : String,
      (runRounds gen numRounds st0).debate_history[i]? =
        some ⟨if i % 2 = 0 then st0.debater1 else st0.debater2, a, i / 2 + 1⟩) ∧
    (∀ (i j : Nat) (ti tj : Turn), i ≤ j →
      (runRounds gen numRounds st0).debate_history[i]? = some ti →
      (runRounds gen numRounds st0).debate_history[j]? = some tj →
      1 ≤ ti.round ∧ ti.round ≤ tj.round ∧ tj.round ≤ numRounds) := by
  have hrun : runRounds gen numRounds st0 =
      runRoundsFuel gen numRounds (numRounds - 1) st0 := by
    unfold runRounds
    rw [hr]
  obtain ⟨tail, hhist, hlen, hidx⟩ :=
    runRoundsFuel_spec gen numRounds (numRounds - 1) st0 (by omega)
  rw [hrun, hhist, hh, List.nil_append]
  have hlen2 : tail.length = 2 * numRounds := by omega
  have hchar : ∀ i, i < 2 * numRounds → ∃ a : String,
      tail[i]? = some ⟨if i % 2 = 0 then st0.debater1 else st0.debater2, a, i / 2 + 1⟩ := by
    intro i hi
    obtain ⟨a, ha⟩ := hidx i (by omega)
    rw [hr, Nat.add_comm 1 (i / 2)] at ha
    exact ⟨a, ha⟩
  refine ⟨hlen2, hchar, ?_⟩
  intro i j ti tj hij hti htj
  have hj : j < tail.length := by
    by_contra hcon
    rw [List.getElem?_eq_none (by omega)] at htj
    cases htj
  have hi : i < tail.length := by omega
  obtain ⟨a, ha⟩ := hchar i (by omega)
  obtain ⟨b, hb⟩ := hchar j (by omega)
  rw [ha] at hti
  rw [hb] at htj
  have hti2 := Option.some.inj hti
  have htj2 := Option.some.inj htj
  have hti3 : ti.round = i / 2 + 1 := by rw [← hti2]
  have htj3 : tj.round = j / 2 + 1 := by rw [← htj2]
  rw [hti3, htj3]
  omega

/-- Witness for C1: a concrete two-round debate accumulates four turns. -/
theorem debate_produces_two_turns_per_round_witness :
    (runRounds (fun _ => "arg") 2
      ⟨"t", "A", "B", "affirmative", "negative", "J", 1, []⟩).debate_history.length =
      2 * 2 :=
  (debate_produces_two_turns_per_round (fun _ => "arg") 2
    ⟨"t", "A", "B", "affirmative", "negative", "J", 1, []⟩ (by decide) rfl rfl).1

theorem strJoin_mem_sub (f : Turn → String) :
    ∀ (hist : List Turn) (e : Turn), e ∈ hist →
      (f e).data <:+: (strJoin (hist.map f)).data := by
  intro hist
  induction hist with
  | nil => intro e he; exact absurd he (List.not_mem_nil e)
  | cons x rest ih =>
    intro e he
    simp only [List.map_cons, strJoin, String.data_append]
    rcases List.mem_cons.1 he with rfl | hmem
    · exact (List.prefix_append (f e).data _).isInfix
    · exact (ih e hmem).trans (List.suffix_append _ _).isInfix

theorem infix_middle {l : List Char} {a m b : String} (h : l <:+: m.data) :
    l <:+: (a ++ m ++ b).data := by
  simp only [String.data_append]
  exact ((h.trans (List.suffix_append a.data m.data).isInfix).trans
    (List.prefix_append (a.data ++ m.data) b.data).isInfix)

/-- C5: the judgment prompt's history section includes one rendered entry for
every Turn of the entire accumulated history, with each historical argument
truncated to at most its first 200 characters (the rendered slice is a prefix
of the argument of length at most 200), while the debate-turn prompt renders
every historical argument verbatim, untruncated, as a `- speaker: argument`
line. -/
theorem judgment_prompt_truncates_history (st : DebateStateRec) :
    (∀ e ∈ st.debate_history,
      (judgment_entry e).data <:+: (create_judgment_prompt st).data ∧
      (pySlice e.argument 200).data <+: e.argument.data ∧
      (pySlice e.argument 200).data.length ≤ 200) ∧
    (∀ e ∈ st.debate_history, ∀ (numRounds : Nat) (speaker : String),
      ("- " ++ e.speaker ++ ": " ++ e.argument ++ "\n").data <:+:
        (create_debate_prompt numRounds st speaker).data) := by
  constructor
  · intro e he
    refine ⟨?_, List.take_prefix _ _, ?_⟩
    · unfold create_judgment_prompt arguments_summary
      exact infix_middle (strJoin_mem_sub judgment_entry _ e he)
    · simp [pySlice]
  · intro e he numRounds speaker
    unfold create_debate_prompt
    apply infix_middle
    unfold history_context
    rw [if_neg (List.ne_nil_of_mem he)]
    have h1 := strJoin_mem_sub
      (fun entry => "- " ++ entry.speaker ++ ": " ++ entry.argument ++ "\n")
      st.debate_history e he
    simp only [String.data_append]
    exact h1.trans (List.suffix_append _ _).isInfix

/-- Witness for C5: a concrete one-entry history is rendered verbatim inside
the debate prompt. -/
theorem judgment_prompt_truncates_history_witness :
    ("- " ++ "A" ++ ": " ++ "hello" ++ "\n").data <:+:
      (create_debate_prompt 3
        ⟨"t", "A", "B", "affirmative", "negative", "J", 1, [⟨"A", "hello", 1⟩]⟩ "A").data :=
  (judgment_prompt_truncates_history
    ⟨"t", "A", "B", "affirmative", "negative", "J", 1, [⟨"A", "hello", 1⟩]⟩).2
    ⟨"A", "hello", 1⟩ (by decide) 3 "A"

/-- C7: a ResponseGenerator failure during a turn is not retried — it is a
fatal abort of the debate propagated to the caller: if the backend errors on
the first debater-1 turn (or on debater 2's turn of the first cycle), the
whole run returns exactly that error, so no Verdict is produced and no
partial history is returned to the caller as a complete result. -/
theorem generator_failure_aborts (genE : String → Except String String)
    (numRounds : Nat) (st0 : DebateStateRec) (msg : String) :
    (genE (create_debate_prompt numRounds st0 st0.debater1) = .error msg →
      stream_runE genE numRounds st0 = .error msg) ∧
    (∀ response1,
      genE (create_debate_prompt numRounds st0 st0.debater1) = .ok response1 →
      genE (create_debate_prompt numRounds
        { st0 with debate_history :=
          st0.debate_history ++ [⟨st0.debater1, response1, st0.round_number⟩] }
        st0.debater2) = .error msg →
      stream_runE genE numRounds st0 = .error msg) := by
  constructor
  · intro h
    simp only [stream_runE, runRoundsE, runRoundsEFuel, h]
  · intro response1 h1 h2
    simp only [stream_runE, runRoundsE, runRoundsEFuel, h1, h2]

/-- Witness for C7: a backend that always fails aborts a concrete debate with
its error. -/
theorem generator_failure_aborts_witness :
    stream_runE (fun _ => .error "backend unavailable") 3
      ⟨"t", "A", "B", "affirmative", "negative", "J", 1, []⟩ =
      .error "backend unavailable" :=
  (generator_failure_aborts (fun _ => .error "backend unavailable") 3
    ⟨"t", "A", "B", "affirmative", "negative", "J", 1, []⟩ "backend unavailable").1 rfl

/-- C8: stance assignment at Setup is a bijection between the two debaters
and {Affirmative, Negative} — the debaters never share a stance — with the two
permutations in bijection with the fair coin (uniform), and the assignment
unchanged by the whole round cycle (fixed for the debate's duration); the
judge is drawn from the fixed roster by a uniform index (the index map is
injective), both in `initialize_debate` and for the "random" sentinel of the
web front end. -/
theorem stance_bijection_and_judge_uniform :
    (∀ (coin : Bool) (jidx : Fin judge_list.length) (topic debater1 debater2 : String),
      (initialize_debate coin jidx topic debater1 debater2).debater1_position ≠
        (initialize_debate coin jidx topic debater1 debater2).debater2_position ∧
      (((initialize_debate coin jidx topic debater1 debater2).debater1_position = "affirmative" ∧
        (initialize_debate coin jidx topic debater1 debater2).debater2_position = "negative") ∨
       ((initialize_debate coin jidx topic debater1 debater2).debater1_position = "negative" ∧
        (initialize_debate coin jidx topic debater1 debater2).debater2_position = "affirmative")) ∧
      (initialize_debate coin jidx topic debater1 debater2).judge ∈ judge_list) ∧
    shuffled_positions true ≠ shuffled_positions false ∧
    (∀ (gen : String → String) (numRounds : Nat) (st : DebateStateRec),
      (runRounds gen numRounds st).debater1_position = st.debater1_position ∧
      (runRounds gen numRounds st).debater2_position = st.debater2_position) ∧
    (∀ i j : Fin judge_list.length, judge_list.get i = judge_list.get j → i = j) ∧
    (∀ (judge : String) (jidx : Fin judge_keys.length),
      pyLower judge = "random" → resolve_judge judge jidx ∈ judge_keys) ∧
    (∀ i j : Fin judge_keys.length, judge_keys.get i = judge_keys.get j → i = j) := by
  refine ⟨?_, by decide, ?_, by decide, ?_, by decide⟩
  · intro coin jidx topic debater1 debater2
    refine ⟨?_, ?_, List.get_mem judge_list jidx.1 jidx.2⟩
    · cases coin
      · exact (show ("negative" : String) ≠ "affirmative" by decide)
      · exact (show ("affirmative" : String) ≠ "negative" by decide)
    · cases coin
      · exact Or.inr ⟨rfl, rfl⟩
      · exact Or.inl ⟨rfl, rfl⟩
  · intro gen numRounds st
    have h := runRoundsFuel_fields gen numRounds (numRounds - st.round_number) st
    exact ⟨h.2.2.2.1, h.2.2.2.2.1⟩
  · intro judge jidx h
    unfold resolve_judge
    rw [if_pos h]
    exact List.get_mem judge_keys jidx.1 jidx.2

/-- Witness for C8: the "random" sentinel resolves to a roster judge. -/
theorem stance_bijection_and_judge_uniform_witness :
    resolve_judge "Random" ⟨0, by decide⟩ ∈ judge_keys :=
  stance_bijection_and_judge_uniform.2.2.2.2.1 "Random" ⟨0, by decide⟩ (by decide)

set_option maxRecDepth 10000 in
/-- C4: the two execution modes are NOT byte-identical on the same random
seed and the same prompt-to-response mapping. With identical positions, judge
and oracle (here: every prompt is answered by its own character count), the
compiled graph gives debater 2 a round-1 prompt that already contains debater
1's round-1 argument, while `run_debate_streamlit` builds debater 2's prompt
from the history as it stood before debater 1 spoke; the two final histories
therefore differ at the second turn. -/
theorem batch_and_stream_histories_diverge :
    (stream_run (fun p => Nat.repr p.data.length) 3
        ⟨"t", "A", "B", "affirmative", "negative", "J", 1, []⟩).1.map Turn.argument ≠
    (run_debate_streamlit (fun p => Nat.repr p.data.length)
        "t" "A" "B" "J" "affirmative" "negative").1.map ProgressEntry.argument := by
  decide

end DuelingQuibblers


